import Mathlib

/-!
Verification of the Police-Heatmap-Client map synchronization engine.

The definitions below are a shallow embedding of the TypeScript source:
  - src/utils/mapUtils.ts   (constants, zoom-to-level mapping, geometry)
  - src/components/MapDisplay.tsx (layer reconciliation, data fetch effect)
  - src/App.tsx             (precision-level state machine)
JavaScript numbers are modelled as rationals, sets as finite sets, and the
asynchronous fetch machinery as an explicit event-trace semantics.
-/

/-! ## Constants and category registries, from src/utils/mapUtils.ts -/

def MAX_API_LEVEL : ℤ := 5
def MIN_API_LEVEL : ℤ := 1

structure TimeWindow where
  id : ℕ
  name : String
  color : String
deriving DecidableEq, Repr

def TIME_WINDOWS : List TimeWindow :=
  [ ⟨0, "Last 7 days", "#FF0000"⟩,
    ⟨1, "7-14 days ago", "#FFFF00"⟩,
    ⟨2, "14-30 days ago", "#00FF00"⟩,
    ⟨3, "30-90 days ago", "#0000FF"⟩ ]

structure DiversityScoreInfo where
  score : ℕ
  name : String
  color : String
deriving DecidableEq, Repr

/-- From mapUtils.ts: the list is chosen by a conditional on TIME_WINDOWS.length,
with a fallback sliced to the number of time windows. -/
def DIVERSITY_SCORE_INFO : List DiversityScoreInfo :=
  if TIME_WINDOWS.length ≥ 4 then
    [ ⟨1, "Score 1 (Lowest Diversity)", "#0000FF"⟩,
      ⟨2, "Score 2", "#00FF00"⟩,
      ⟨3, "Score 3", "#FFFF00"⟩,
      ⟨4, "Score 4 (Highest Diversity)", "#FF0000"⟩ ]
  else
    ([ ⟨1, "Score 1", "#0000FF"⟩,
       ⟨2, "Score 2", "#00FF00"⟩,
       ⟨3, "Score 3", "#FFFF00"⟩ ].take TIME_WINDOWS.length)

/-- mapboxZoomToApiLevel from mapUtils.ts: nested comparisons on the zoom,
then a lower clamp with Math.max against MIN_API_LEVEL. -/
def mapboxZoomToApiLevel (mapboxZoom : ℚ) : ℤ :=
  let level : ℤ :=
    if mapboxZoom < 4 then 1
    else if mapboxZoom < 7 then 1
    else if mapboxZoom < 10 then 2
    else if mapboxZoom < 13 then 3
    else if mapboxZoom < 16 then 4
    else MAX_API_LEVEL
  max MIN_API_LEVEL level

/-! ## Data points and GeoJSON features, from src/types/index.ts and mapUtils.ts -/

/-- DensityDataPoint and DiversityDataPoint are mutually exclusive variants
distinguished in the code by a structural probe on the density field. -/
inductive DataPoint where
  | density (lon lat : ℚ) (density : ℕ)
  | diversity (lon lat : ℚ) (score : ℕ)
deriving DecidableEq, Repr

def DataPoint.lon : DataPoint → ℚ
  | .density l _ _ => l
  | .diversity l _ _ => l

def DataPoint.lat : DataPoint → ℚ
  | .density _ l _ => l
  | .diversity _ l _ => l

/-- The GeoJsonProperties attached to a feature: exactly one of the two value
fields is present, mirroring the structural-probe dispatch in the source. -/
inductive GeoProps where
  | density (d : ℕ)
  | score (s : ℕ)
deriving DecidableEq, Repr

inductive Geometry where
  | polygon (rings : List (List (ℚ × ℚ)))
  | point (coord : ℚ × ℚ)
deriving DecidableEq, Repr

structure Feature where
  geometry : Geometry
  properties : GeoProps
deriving DecidableEq, Repr

structure FeatureCollection where
  features : List Feature
deriving DecidableEq, Repr

def emptyFeatureCollection : FeatureCollection := ⟨[]⟩

/-- The properties conversion shared by calculateCellPolygon and
createHeatmapPoints: density points keep their density, diversity points
keep their score. -/
def pointProps : DataPoint → GeoProps
  | .density _ _ d => .density d
  | .diversity _ _ s => .score s

/-- The level clamp inside calculateCellPolygon: Math.max(MIN_API_LEVEL, apiLevel). -/
def effectiveApiLevelOf (apiLevel : ℤ) : ℤ := max MIN_API_LEVEL apiLevel

/-- The halfDelta computed inside calculateCellPolygon: (1 / 10^level) / 2. -/
def halfDeltaOf (apiLevel : ℤ) : ℚ :=
  (1 / (10 : ℚ) ^ (effectiveApiLevelOf apiLevel).toNat) / 2

/-- calculateCellPolygon from mapUtils.ts: clamp the level from below,
compute halfDelta = (1 / 10^level) / 2, and build the square ring around
(lon, lat) in the exact vertex order of the source. -/
def calculateCellPolygon (point : DataPoint) (apiLevel : ℤ) : Feature :=
  let lon := point.lon
  let lat := point.lat
  let halfDelta : ℚ := halfDeltaOf apiLevel
  let minLon := lon - halfDelta
  let maxLon := lon + halfDelta
  let minLat := lat - halfDelta
  let maxLat := lat + halfDelta
  { geometry := .polygon
      [[ (minLon, maxLat), (maxLon, maxLat),
         (maxLon, minLat), (minLon, minLat),
         (minLon, maxLat) ]],
    properties := pointProps point }

/-- createHeatmapPoints from mapUtils.ts: each data point becomes a GeoJSON
point feature at (lon, lat) carrying the same value property. -/
def createHeatmapPoints (points : List DataPoint) : List Feature :=
  points.map fun point =>
    { geometry := .point (point.lon, point.lat),
      properties := pointProps point }

lemma mapboxZoomToApiLevel_range (z : ℚ) :
    MIN_API_LEVEL ≤ mapboxZoomToApiLevel z ∧
      mapboxZoomToApiLevel z ≤ MAX_API_LEVEL := by
  unfold mapboxZoomToApiLevel MAX_API_LEVEL MIN_API_LEVEL
  split_ifs <;> simp_all

/-! ## Theorems for claim C4 -/

/-- C4: mapboxZoomToApiLevel is monotone non-decreasing in zoom, returns
MIN_API_LEVEL below the lowest threshold (zoom 4), MAX_API_LEVEL at or above
the top threshold (zoom 16), and always lands inside
[MIN_API_LEVEL, MAX_API_LEVEL]. -/
theorem mapboxZoomToApiLevel_spec :
    (∀ z1 z2 : ℚ, z1 ≤ z2 → mapboxZoomToApiLevel z1 ≤ mapboxZoomToApiLevel z2) ∧
    (∀ z : ℚ, z < 4 → mapboxZoomToApiLevel z = MIN_API_LEVEL) ∧
    (∀ z : ℚ, 16 ≤ z → mapboxZoomToApiLevel z = MAX_API_LEVEL) ∧
    (∀ z : ℚ, MIN_API_LEVEL ≤ mapboxZoomToApiLevel z ∧
      mapboxZoomToApiLevel z ≤ MAX_API_LEVEL) := by
  refine ⟨?_, ?_, ?_, ?_⟩
  · intro z1 z2 h
    unfold mapboxZoomToApiLevel MAX_API_LEVEL MIN_API_LEVEL
    split_ifs <;> simp_all <;> linarith
  · intro z h
    unfold mapboxZoomToApiLevel MIN_API_LEVEL
    split_ifs <;> simp_all
  · intro z h
    unfold mapboxZoomToApiLevel MAX_API_LEVEL MIN_API_LEVEL
    split_ifs <;> simp_all <;> linarith
  · exact mapboxZoomToApiLevel_range

/-- Witness for C4 at concrete zooms: 3 ≤ 5, zoom 3 maps to the minimum,
zoom 17 to the maximum, and zoom 8 stays in range. -/
theorem mapboxZoomToApiLevel_spec_witness :
    mapboxZoomToApiLevel 3 ≤ mapboxZoomToApiLevel 5 ∧
    mapboxZoomToApiLevel 3 = MIN_API_LEVEL ∧
    mapboxZoomToApiLevel 17 = MAX_API_LEVEL ∧
    (MIN_API_LEVEL ≤ mapboxZoomToApiLevel 8 ∧
      mapboxZoomToApiLevel 8 ≤ MAX_API_LEVEL) :=
  ⟨mapboxZoomToApiLevel_spec.1 3 5 (by norm_num),
   mapboxZoomToApiLevel_spec.2.1 3 (by norm_num),
   mapboxZoomToApiLevel_spec.2.2.1 17 (by norm_num),
   mapboxZoomToApiLevel_spec.2.2.2 8⟩

/-! ## Theorems for claims C7 and C10 -/

/-- C7: for every data point and every apiLevel in
[MIN_API_LEVEL, MAX_API_LEVEL], calculateCellPolygon returns a single square
polygon feature centered at (lon, lat) whose half-width on both axes is
exactly (1/2) / 10^apiLevel degrees, carrying the value field of the point
as its property. -/
theorem calculateCellPolygon_inRange_spec (p : DataPoint) (apiLevel : ℤ)
    (hmin : MIN_API_LEVEL ≤ apiLevel) (hmax : apiLevel ≤ MAX_API_LEVEL) :
    calculateCellPolygon p apiLevel =
      { geometry := Geometry.polygon
          [[ (p.lon - (1 / 2) / (10 : ℚ) ^ apiLevel.toNat,
              p.lat + (1 / 2) / (10 : ℚ) ^ apiLevel.toNat),
             (p.lon + (1 / 2) / (10 : ℚ) ^ apiLevel.toNat,
              p.lat + (1 / 2) / (10 : ℚ) ^ apiLevel.toNat),
             (p.lon + (1 / 2) / (10 : ℚ) ^ apiLevel.toNat,
              p.lat - (1 / 2) / (10 : ℚ) ^ apiLevel.toNat),
             (p.lon - (1 / 2) / (10 : ℚ) ^ apiLevel.toNat,
              p.lat - (1 / 2) / (10 : ℚ) ^ apiLevel.toNat),
             (p.lon - (1 / 2) / (10 : ℚ) ^ apiLevel.toNat,
              p.lat + (1 / 2) / (10 : ℚ) ^ apiLevel.toNat) ]],
        properties := pointProps p } := by
  have heff : effectiveApiLevelOf apiLevel = apiLevel := max_eq_right hmin
  have hhalf : halfDeltaOf apiLevel = (1 / 2) / (10 : ℚ) ^ apiLevel.toNat := by
    rw [halfDeltaOf, heff]; ring
  simp [calculateCellPolygon, hhalf]

/-- Witness for C7: at level 2 the half-width is 1/200 = 0.005 degrees, on
the concrete point of the end-to-end scenario. -/
theorem calculateCellPolygon_inRange_spec_witness :
    calculateCellPolygon (DataPoint.density (-95) 35 10) 2 =
      { geometry := Geometry.polygon
          [[ (-95 - 1 / 200, 35 + 1 / 200), (-95 + 1 / 200, 35 + 1 / 200),
             (-95 + 1 / 200, 35 - 1 / 200), (-95 - 1 / 200, 35 - 1 / 200),
             (-95 - 1 / 200, 35 + 1 / 200) ]],
        properties := GeoProps.density 10 } := by
  have h := calculateCellPolygon_inRange_spec (DataPoint.density (-95) 35 10) 2
    (by norm_num [MIN_API_LEVEL]) (by norm_num [MAX_API_LEVEL])
  rw [h]
  norm_num [DataPoint.lon, DataPoint.lat, pointProps,
    show ((2 : ℤ)).toNat = 2 from rfl]

/-- C10: for every data point and every apiLevel strictly below
MIN_API_LEVEL, calculateCellPolygon agrees exactly with its value at
MIN_API_LEVEL (the level is clamped from below before the half-width is
computed), and the half-width never exceeds the MIN_API_LEVEL half-width. -/
theorem calculateCellPolygon_belowMin_spec (p : DataPoint) (apiLevel : ℤ)
    (h : apiLevel < MIN_API_LEVEL) :
    calculateCellPolygon p apiLevel = calculateCellPolygon p MIN_API_LEVEL ∧
    (∀ lvl : ℤ, halfDeltaOf lvl ≤ halfDeltaOf MIN_API_LEVEL) := by
  constructor
  · have h1 : effectiveApiLevelOf apiLevel = MIN_API_LEVEL := max_eq_left h.le
    have h2 : effectiveApiLevelOf MIN_API_LEVEL = MIN_API_LEVEL := max_self _
    simp [calculateCellPolygon, halfDeltaOf, h1, h2]
  · intro lvl
    have h2 : effectiveApiLevelOf MIN_API_LEVEL = MIN_API_LEVEL := max_self _
    have hle : (1 : ℕ) ≤ (effectiveApiLevelOf lvl).toNat := by
      have : (1 : ℤ) ≤ effectiveApiLevelOf lvl := le_max_left _ _
      omega
    have hpow : (10 : ℚ) ^ (1 : ℕ) ≤ (10 : ℚ) ^ (effectiveApiLevelOf lvl).toNat :=
      pow_le_pow_right₀ (by norm_num) hle
    have hpos : (0 : ℚ) < (10 : ℚ) ^ (1 : ℕ) := by norm_num
    have hinv : 1 / (10 : ℚ) ^ (effectiveApiLevelOf lvl).toNat ≤ 1 / (10 : ℚ) ^ (1 : ℕ) :=
      one_div_le_one_div_of_le hpos hpow
    have : (effectiveApiLevelOf MIN_API_LEVEL).toNat = 1 := by
      rw [h2]; rfl
    rw [halfDeltaOf, halfDeltaOf, this]
    linarith

/-- Witness for C10: level 0 (below the minimum of 1) yields the same
feature as level 1, on a concrete point. -/
theorem calculateCellPolygon_belowMin_spec_witness :
    calculateCellPolygon (DataPoint.diversity 2 3 4) 0 =
      calculateCellPolygon (DataPoint.diversity 2 3 4) MIN_API_LEVEL ∧
    (∀ lvl : ℤ, halfDeltaOf lvl ≤ halfDeltaOf MIN_API_LEVEL) :=
  calculateCellPolygon_belowMin_spec (DataPoint.diversity 2 3 4) 0
    (by norm_num [MIN_API_LEVEL])

/-! ## Heatmap opacity reconciliation, from src/components/MapDisplay.tsx -/

def HEATMAP_RELATIVE_MAX_OPACITY : ℚ := 85 / 100
def HEATMAP_RELATIVE_MIN_OPACITY : ℚ := 40 / 100

/-- The relativeOpacity computation of the density heatmap branch in the
layer reconciliation effect (MapDisplay.tsx): start at the maximum, then for
families larger than one, interpolate linearly by id / (numTimeWindows - 1),
clamp into [min, max], and force the two endpoints. -/
def relativeOpacity (numTimeWindows : ℕ) (id : ℕ) : ℚ :=
  if 1 < numTimeWindows then
    let factor : ℚ := (id : ℚ) / ((numTimeWindows : ℚ) - 1)
    let r0 := HEATMAP_RELATIVE_MAX_OPACITY -
      factor * (HEATMAP_RELATIVE_MAX_OPACITY - HEATMAP_RELATIVE_MIN_OPACITY)
    let r1 := max HEATMAP_RELATIVE_MIN_OPACITY (min r0 HEATMAP_RELATIVE_MAX_OPACITY)
    let r2 := if id = numTimeWindows - 1 then HEATMAP_RELATIVE_MIN_OPACITY else r1
    if id = 0 then HEATMAP_RELATIVE_MAX_OPACITY else r2
  else HEATMAP_RELATIVE_MAX_OPACITY

/-- The heatmap-opacity paint value the reconciliation assigns to the layer
of the time window with the given id: relativeOpacity times the user
opacity knob. -/
def heatmapOpacityAssigned (numTimeWindows id : ℕ) (knob : ℚ) : ℚ :=
  relativeOpacity numTimeWindows id * knob

lemma relativeOpacity_closed (N i : ℕ) (hN : 1 < N) (hi : i < N) :
    relativeOpacity N i = HEATMAP_RELATIVE_MAX_OPACITY -
      ((i : ℚ) / ((N : ℚ) - 1)) *
        (HEATMAP_RELATIVE_MAX_OPACITY - HEATMAP_RELATIVE_MIN_OPACITY) := by
  have hN1 : (0 : ℚ) < (N : ℚ) - 1 := by
    have : (2 : ℚ) ≤ (N : ℚ) := by exact_mod_cast hN
    linarith
  have hf0 : 0 ≤ (i : ℚ) / ((N : ℚ) - 1) := by positivity
  have hiN : (i : ℚ) + 1 ≤ (N : ℚ) := by exact_mod_cast Nat.succ_le_of_lt hi
  have hfle : (i : ℚ) / ((N : ℚ) - 1) ≤ 1 := by
    rw [div_le_one hN1]; linarith
  rw [relativeOpacity, if_pos hN]
  by_cases h0 : i = 0
  · subst h0
    simp
  · rw [if_neg h0]
    by_cases hlast : i = N - 1
    · rw [if_pos hlast]
      have hcast : (i : ℚ) = (N : ℚ) - 1 := by
        subst hlast
        have h1 : (1 : ℕ) ≤ N := by omega
        push_cast [h1]
        ring
      rw [hcast, div_self (ne_of_gt hN1)]
      rw [HEATMAP_RELATIVE_MAX_OPACITY, HEATMAP_RELATIVE_MIN_OPACITY]
      norm_num
    · rw [if_neg hlast]
      have hr0max : HEATMAP_RELATIVE_MAX_OPACITY -
          ((i : ℚ) / ((N : ℚ) - 1)) *
            (HEATMAP_RELATIVE_MAX_OPACITY - HEATMAP_RELATIVE_MIN_OPACITY) ≤
          HEATMAP_RELATIVE_MAX_OPACITY := by
        rw [HEATMAP_RELATIVE_MAX_OPACITY, HEATMAP_RELATIVE_MIN_OPACITY]
        nlinarith
      have hr0min : HEATMAP_RELATIVE_MIN_OPACITY ≤
          HEATMAP_RELATIVE_MAX_OPACITY -
            ((i : ℚ) / ((N : ℚ) - 1)) *
              (HEATMAP_RELATIVE_MAX_OPACITY - HEATMAP_RELATIVE_MIN_OPACITY) := by
        rw [HEATMAP_RELATIVE_MAX_OPACITY, HEATMAP_RELATIVE_MIN_OPACITY]
        nlinarith
      rw [min_eq_left hr0max, max_eq_right hr0min]

lemma relativeOpacity_strict_anti (N i j : ℕ) (hN : 1 < N) (hij : i < j)
    (hj : j < N) : relativeOpacity N j < relativeOpacity N i := by
  have hi : i < N := lt_trans hij hj
  rw [relativeOpacity_closed N i hN hi, relativeOpacity_closed N j hN hj]
  have hN1 : (0 : ℚ) < (N : ℚ) - 1 := by
    have : (2 : ℚ) ≤ (N : ℚ) := by exact_mod_cast hN
    linarith
  have hlt : (i : ℚ) / ((N : ℚ) - 1) < (j : ℚ) / ((N : ℚ) - 1) := by
    apply div_lt_div_of_pos_right ?_ hN1
    exact_mod_cast hij
  simp only [HEATMAP_RELATIVE_MAX_OPACITY, HEATMAP_RELATIVE_MIN_OPACITY]
  nlinarith [hlt]

lemma relativeOpacity_bounds (N k : ℕ) (hN : 1 < N) (hk : k < N) :
    HEATMAP_RELATIVE_MIN_OPACITY ≤ relativeOpacity N k ∧
    relativeOpacity N k ≤ HEATMAP_RELATIVE_MAX_OPACITY := by
  rw [relativeOpacity_closed N k hN hk]
  have hN1 : (0 : ℚ) < (N : ℚ) - 1 := by
    have : (2 : ℚ) ≤ (N : ℚ) := by exact_mod_cast hN
    linarith
  have hf0 : 0 ≤ (k : ℚ) / ((N : ℚ) - 1) := by positivity
  have hkN : (k : ℚ) + 1 ≤ (N : ℚ) := by exact_mod_cast Nat.succ_le_of_lt hk
  have hfle : (k : ℚ) / ((N : ℚ) - 1) ≤ 1 := by
    rw [div_le_one hN1]; linarith
  simp only [HEATMAP_RELATIVE_MAX_OPACITY, HEATMAP_RELATIVE_MIN_OPACITY]
  constructor <;> nlinarith

/-! ## Theorems for claim C6 -/

/-- C6 (amended): for every family of N greater than 1 time windows and a
strictly positive opacity knob at most 1, the assigned heatmap opacity is
strictly decreasing as the order index increases; and for every knob in
[0, 1] each assigned value lies within
[HEATMAP_RELATIVE_MIN_OPACITY * knob, HEATMAP_RELATIVE_MAX_OPACITY * knob]
and within [0, 1]. At knob = 0 all assigned opacities are equal to 0, so
strict decrease needs the knob to be positive. -/
theorem heatmapOpacityAssigned_spec :
    (∀ (N i j : ℕ) (knob : ℚ), 1 < N → i < j → j < N → 0 < knob → knob ≤ 1 →
      heatmapOpacityAssigned N j knob < heatmapOpacityAssigned N i knob) ∧
    (∀ (N k : ℕ) (knob : ℚ), 1 < N → k < N → 0 ≤ knob → knob ≤ 1 →
      HEATMAP_RELATIVE_MIN_OPACITY * knob ≤ heatmapOpacityAssigned N k knob ∧
      heatmapOpacityAssigned N k knob ≤ HEATMAP_RELATIVE_MAX_OPACITY * knob ∧
      0 ≤ heatmapOpacityAssigned N k knob ∧
      heatmapOpacityAssigned N k knob ≤ 1) := by
  constructor
  · intro N i j knob hN hij hj hk0 _
    have := relativeOpacity_strict_anti N i j hN hij hj
    exact mul_lt_mul_of_pos_right this hk0
  · intro N k knob hN hk hk0 hk1
    obtain ⟨hlo, hhi⟩ := relativeOpacity_bounds N k hN hk
    refine ⟨mul_le_mul_of_nonneg_right hlo hk0,
      mul_le_mul_of_nonneg_right hhi hk0, ?_, ?_⟩
    · have hm : (0 : ℚ) ≤ HEATMAP_RELATIVE_MIN_OPACITY := by
        rw [HEATMAP_RELATIVE_MIN_OPACITY]; norm_num
      rw [heatmapOpacityAssigned]
      exact mul_nonneg (le_trans hm hlo) hk0
    · have hm : HEATMAP_RELATIVE_MAX_OPACITY ≤ 1 := by
        rw [HEATMAP_RELATIVE_MAX_OPACITY]; norm_num
      rw [heatmapOpacityAssigned]
      exact mul_le_one₀ (le_trans hhi hm) hk0 hk1

/-- Witness for C6 on the concrete family of 4 time windows with knob 1/2:
index 2 gets strictly less opacity than index 1, and index 3 stays within
the scaled bounds. -/
theorem heatmapOpacityAssigned_spec_witness :
    heatmapOpacityAssigned 4 2 (1 / 2) < heatmapOpacityAssigned 4 1 (1 / 2) ∧
    (HEATMAP_RELATIVE_MIN_OPACITY * (1 / 2) ≤ heatmapOpacityAssigned 4 3 (1 / 2) ∧
      heatmapOpacityAssigned 4 3 (1 / 2) ≤ HEATMAP_RELATIVE_MAX_OPACITY * (1 / 2) ∧
      0 ≤ heatmapOpacityAssigned 4 3 (1 / 2) ∧
      heatmapOpacityAssigned 4 3 (1 / 2) ≤ 1) :=
  ⟨heatmapOpacityAssigned_spec.1 4 1 2 (1 / 2) (by norm_num) (by norm_num)
      (by norm_num) (by norm_num) (by norm_num),
   heatmapOpacityAssigned_spec.2 4 3 (1 / 2) (by norm_num) (by norm_num)
      (by norm_num) (by norm_num)⟩

/-- Counterexample refuting C6 as stated: with the opacity knob at 0 (a
value inside [0, 1]) and the family of 4 time windows, order indices 0 and
1 receive the same assigned opacity 0, so the assignment is not strictly
decreasing for every knob in [0, 1]. -/
theorem heatmapOpacityAssigned_knobZero_counterexample :
    (0 : ℚ) ≤ 0 ∧ (0 : ℚ) ≤ 1 ∧ (1 : ℕ) < 4 ∧ (0 : ℕ) < 1 ∧ (1 : ℕ) < 4 ∧
    heatmapOpacityAssigned 4 1 0 = heatmapOpacityAssigned 4 0 0 ∧
    ¬ (heatmapOpacityAssigned 4 1 0 < heatmapOpacityAssigned 4 0 0) := by
  refine ⟨le_refl _, by norm_num, by norm_num, by norm_num, by norm_num, ?_, ?_⟩
  · simp [heatmapOpacityAssigned]
  · simp [heatmapOpacityAssigned]

/-! ## Category ordering indices, for claim C9 -/

/-- The ordering indices of the density family: the id field of each time
window, which the reconciliation uses directly for age interpolation. -/
def timeWindowIds : List ℕ := TIME_WINDOWS.map (fun tw => tw.id)

/-- The ordering indices of the diversity family: the score field of each
entry, used directly as the ordering value by the rendering code. -/
def diversityOrderIndices : List ℕ := DIVERSITY_SCORE_INFO.map (fun d => d.score)

/-- Counterexample refuting C9 as stated: the diversity family ordering
indices are the scores 1, 2, 3, 4, which are not a permutation of the
contiguous 0-based set given by List.range of the family size (0 is
missing). -/
theorem diversityOrderIndices_not_zero_based :
    diversityOrderIndices = [1, 2, 3, 4] ∧
    ¬ List.Perm diversityOrderIndices (List.range DIVERSITY_SCORE_INFO.length) := by
  constructor
  · rfl
  · intro h
    have h0 : (0 : ℕ) ∈ List.range DIVERSITY_SCORE_INFO.length := by decide
    have := h.mem_iff.mpr h0
    simp [diversityOrderIndices, DIVERSITY_SCORE_INFO, TIME_WINDOWS] at this

/-- C9 (amended): the time-window ordering indices are exactly the
contiguous 0-based range 0..N-1, while the diversity ordering indices are
the contiguous 1-based range 1..N. -/
theorem orderIndices_contiguous :
    timeWindowIds = List.range TIME_WINDOWS.length ∧
    diversityOrderIndices =
      (List.range DIVERSITY_SCORE_INFO.length).map (fun k => k + 1) := by
  constructor <;> rfl

/-! ## UI state enumerations, from src/types/index.ts -/

inductive DisplayMode where
  | fill
  | heatmap
deriving DecidableEq, Repr

inductive DataSourceType where
  | density
  | diversity
deriving DecidableEq, Repr

inductive DiversityHeatmapRenderMode where
  | stacked
  | perScore
deriving DecidableEq, Repr

/-! ## Stacked diversity heatmap filter, from the reconciliation effect -/

/-- The fragment of the mapbox filter-expression language used by the
reconciliation: an inclusion test of the score property against a literal
list, a boolean literal, and the per-score equality filter. -/
inductive FilterExpr where
  | inScore (scores : List ℕ)
  | boolLit (b : Bool)
  | eqScore (v : ℕ)
deriving DecidableEq, Repr

/-- Filter evaluation against the score property of a feature. -/
def evalFilter : FilterExpr → ℕ → Bool
  | .inScore l, s => decide (s ∈ l)
  | .boolLit b, _ => b
  | .eqScore v, s => s == v

/-- diversityStackedFilter from MapDisplay.tsx: a literal inclusion filter
when the selected score array is non-empty, the constant-false filter
otherwise. -/
def diversityStackedFilter (scoresArray : List ℕ) : FilterExpr :=
  if 0 < scoresArray.length then .inScore scoresArray else .boolLit false

/-- Visibility the reconciliation assigns to the shared stacked heatmap
layer: the initial pass hides it, and only the diversity/heatmap/stacked
branch switches it back on, unconditionally in the selection. -/
def stackedHeatmapVisible (src : DataSourceType) (mode : DisplayMode)
    (renderMode : DiversityHeatmapRenderMode) : Bool :=
  match src, mode, renderMode with
  | .diversity, .heatmap, .stacked => true
  | _, _, _ => false

/-! ## Theorem for claim C5 -/

/-- C5: in diversity/heatmap/stacked state the reconciliation makes the
stacked layer visible and installs an inclusion filter that matches a score
exactly when it is in the selected score array; with an empty selection the
layer stays visible while the filter matches no score at all. -/
theorem stackedDiversityFilter_spec :
    (∀ selected : List ℕ,
      stackedHeatmapVisible .diversity .heatmap .stacked = true ∧
      (∀ s : ℕ, evalFilter (diversityStackedFilter selected) s = true ↔ s ∈ selected)) ∧
    (∀ s : ℕ, evalFilter (diversityStackedFilter []) s = false) := by
  constructor
  · intro selected
    refine ⟨rfl, ?_⟩
    intro s
    rw [diversityStackedFilter]
    split_ifs with h
    · simp [evalFilter]
    · have : selected = [] := List.length_eq_zero.mp (by omega)
      subst this
      simp [evalFilter]
  · intro s
    rfl

/-! ## Data fetch handling, from the fetch effect in MapDisplay.tsx -/

/-- Outcome of one fetch call: a network failure, a non-2xx status (the
thrown API error carrying the body text), a JSON parse failure, or a parsed
response array. -/
inductive FetchOutcome where
  | networkError
  | httpError (status : ℕ) (body : String)
  | malformedJson
  | ok (data : List DataPoint)
deriving DecidableEq, Repr

def FetchOutcome.isFailure : FetchOutcome → Bool
  | .ok _ => false
  | _ => true

/-- The feature conversion inside the fetch effect: polygons in fill mode,
raw points in heatmap mode. -/
def responseFeatures (mode : DisplayMode) (apiLevel : ℤ)
    (data : List DataPoint) : List Feature :=
  match mode with
  | .fill => data.map (fun p => calculateCellPolygon p apiLevel)
  | .heatmap => createHeatmapPoints data

/-- The try/catch body of one per-category fetch in the fetch effect: on a
parsed response the source receives the converted features; every failure
path lands in the catch block, which logs and writes the empty collection.
The second component records whether the error logger ran. -/
def fetchHandler (mode : DisplayMode) (apiLevel : ℤ)
    (outcome : FetchOutcome) : FeatureCollection × Bool :=
  match outcome with
  | .ok data => (⟨responseFeatures mode apiLevel data⟩, false)
  | _ => (emptyFeatureCollection, true)

/-! ## Theorems for claim C8 -/

/-- C8: every failing fetch outcome (network error, non-2xx status, or
malformed JSON) makes the handler write the empty feature collection to the
source and log the error; the handler is a total function, so no exception
escapes the fetch effect. -/
theorem fetchHandler_failure_spec (mode : DisplayMode) (apiLevel : ℤ)
    (outcome : FetchOutcome) (h : outcome.isFailure = true) :
    fetchHandler mode apiLevel outcome = (emptyFeatureCollection, true) := by
  cases outcome with
  | ok data => simp [FetchOutcome.isFailure] at h
  | networkError => rfl
  | httpError status body => rfl
  | malformedJson => rfl

/-- Witness for C8: a concrete 500 response clears the source and logs. -/
theorem fetchHandler_failure_spec_witness :
    (FetchOutcome.httpError 500 "boom").isFailure = true ∧
    fetchHandler .fill 2 (FetchOutcome.httpError 500 "boom") =
      (emptyFeatureCollection, true) :=
  ⟨rfl, fetchHandler_failure_spec .fill 2 (FetchOutcome.httpError 500 "boom") rfl⟩

/-! ## Stale-response trace semantics, for claim C1 -/

/-- One observable event on a single category: the effect issues a request,
or a response for an earlier request arrives and its continuation runs. -/
inductive FetchEvent where
  | issue (reqId : ℕ)
  | resolve (reqId : ℕ) (outcome : FetchOutcome)
deriving DecidableEq, Repr

/-- What the fetch effect in MapDisplay.tsx does to the category source on
each event: issuing keeps the content, and a resolving response writes its
result unconditionally — the code keeps no record of which request is
newest, so the request id of the response is never consulted. -/
def applyFetchEvent (mode : DisplayMode) (apiLevel : ℤ)
    (content : FeatureCollection) : FetchEvent → FeatureCollection
  | .issue _ => content
  | .resolve _ outcome => (fetchHandler mode apiLevel outcome).1

def runFetchTrace (mode : DisplayMode) (apiLevel : ℤ)
    (init : FeatureCollection) (events : List FetchEvent) : FeatureCollection :=
  events.foldl (applyFetchEvent mode apiLevel) init

/-- The outcome of the last response arrival in a trace, if any. -/
def lastResolvedOutcome : List FetchEvent → Option FetchOutcome
  | [] => none
  | .issue _ :: t => lastResolvedOutcome t
  | .resolve _ o :: t => some ((lastResolvedOutcome t).getD o)

/-- Counterexample refuting C1: request 0 is issued before request 1, the
response to request 1 arrives and writes one point feature, then the stale
response to request 0 arrives and overwrites the source with its own (empty)
result — the earlier response is not dropped. -/
theorem staleResponse_counterexample :
    runFetchTrace .heatmap 2 emptyFeatureCollection
      [ .issue 0, .issue 1,
        .resolve 1 (.ok [DataPoint.density 0 0 1]),
        .resolve 0 (.ok []) ] =
      (fetchHandler .heatmap 2 (.ok [])).1 ∧
    (fetchHandler .heatmap 2 (.ok [])).1 ≠
      (fetchHandler .heatmap 2 (.ok [DataPoint.density 0 0 1])).1 := by
  constructor
  · rfl
  · intro h
    simp [fetchHandler, responseFeatures, createHeatmapPoints,
      emptyFeatureCollection] at h

/-- C1 (amended): the fetch effect has no staleness guard, so responses are
applied in arrival order — after any trace of issues and arrivals, the
category source holds exactly the result of the last-arrived response
(last response wins, regardless of the order in which requests were
issued), or its initial content when no response arrived. -/
theorem staleResponse_lastArrivalWins (mode : DisplayMode) (apiLevel : ℤ)
    (init : FeatureCollection) (events : List FetchEvent) :
    runFetchTrace mode apiLevel init events =
      match lastResolvedOutcome events with
      | none => init
      | some o => (fetchHandler mode apiLevel o).1 := by
  induction events generalizing init with
  | nil => rfl
  | cons e t ih =>
    cases e with
    | issue n =>
      show runFetchTrace mode apiLevel init t = _
      rw [ih init]
      rfl
    | resolve n o =>
      show runFetchTrace mode apiLevel ((fetchHandler mode apiLevel o).1) t = _
      rw [ih ((fetchHandler mode apiLevel o).1)]
      cases hlast : lastResolvedOutcome t with
      | none => simp [lastResolvedOutcome, hlast]
      | some o2 => simp [lastResolvedOutcome, hlast]

/-! ## The data fetch effect and its dependency list, for claim C2 -/

/-- The viewport bounds consumed by the fetch effect. -/
structure Bounds where
  west : ℚ
  south : ℚ
  east : ℚ
  north : ℚ
deriving DecidableEq, Repr

/-- The dependency list of the data fetch effect in MapDisplay.tsx:
[selectedTimeWindows, selectedRadiusGroupId, currentApiLevel, currentBounds,
isMapLoaded, displayMode, dataSource]. React re-runs the effect exactly when
one of these changed. -/
structure FetchDeps where
  selectedTimeWindows : Finset ℕ
  selectedRadiusGroupId : ℕ
  currentApiLevel : ℤ
  currentBounds : Option Bounds
  isMapLoaded : Bool
  displayMode : DisplayMode
  dataSource : DataSourceType
deriving DecidableEq

/-- A HTTP request issued by the fetch effect, keyed by the query
parameters the code puts into the URL. -/
inductive Request where
  | density (time_window_id : ℕ) (level : ℤ) (bounds : Bounds)
  | diversity (radius_group_id : ℕ) (level : ℤ) (bounds : Bounds)
deriving DecidableEq, Repr

/-- The fetch effect runs again iff its dependency tuple changed. -/
def effectReruns (d1 d2 : FetchDeps) : Bool := d1 != d2

/-- The requests one run of the fetch effect issues: nothing before the map
is loaded or bounds exist; in density mode one request per selected time
window; in diversity mode always exactly one request. The display mode is
not part of any request. -/
def requestsIssued (d : FetchDeps) : List Request :=
  if d.isMapLoaded = false then []
  else
    match d.currentBounds with
    | none => []
    | some b =>
      match d.dataSource with
      | .density =>
          (TIME_WINDOWS.filter (fun tw => tw.id ∈ d.selectedTimeWindows)).map
            (fun tw => .density tw.id d.currentApiLevel b)
      | .diversity => [.diversity d.selectedRadiusGroupId d.currentApiLevel b]

/-- Visibility the reconciliation assigns to a density fill layer: hidden by
the initial pass, then shown only for a selected time window in fill mode
while the density source is active. -/
def densityFillVisible (src : DataSourceType) (mode : DisplayMode)
    (selected : Finset ℕ) (twId : ℕ) : Bool :=
  match src with
  | .density => decide (twId ∈ selected) && (mode == DisplayMode.fill)
  | .diversity => false

/-- Visibility the reconciliation assigns to a per-time-window density
heatmap layer. -/
def densityHeatmapVisible (src : DataSourceType) (mode : DisplayMode)
    (selected : Finset ℕ) (twId : ℕ) : Bool :=
  match src with
  | .density => decide (twId ∈ selected) && (mode == DisplayMode.heatmap)
  | .diversity => false

/-- The scenario-2 dependency tuple: only time window 0 selected, level 2,
bounds [-100, 30, -90, 40], map loaded, fill mode, density source. -/
def scenario2DepsFill : FetchDeps :=
  ⟨{0}, 0, 2, some ⟨-100, 30, -90, 40⟩, true, .fill, .density⟩

/-- The same tuple after toggling only the display mode to heatmap. -/
def scenario2DepsHeatmap : FetchDeps :=
  { scenario2DepsFill with displayMode := .heatmap }

/-! ## Theorems for claim C2 -/

/-- Counterexample refuting C2 as stated: toggling only the display mode
from fill to heatmap changes the dependency tuple of the fetch effect, so
the effect re-runs, and that run issues a (non-empty) fetch request list —
one density request for the selected time window. -/
theorem displayModeToggle_counterexample :
    effectReruns scenario2DepsFill scenario2DepsHeatmap = true ∧
    requestsIssued scenario2DepsHeatmap =
      [Request.density 0 2 ⟨-100, 30, -90, 40⟩] ∧
    requestsIssued scenario2DepsHeatmap ≠ [] := by
  refine ⟨?_, ?_, ?_⟩
  · decide
  · decide
  · decide

/-- C2 (amended): toggling only the display mode from fill to heatmap does
re-run the fetch effect (displayMode is in its dependency list), but the
requests issued are identical to the previous run (the display mode is not
part of any request key); the reconciliation hides every density fill layer
and shows the heatmap layer of each selected time window, and order index 0
receives the maximum relative opacity. -/
theorem displayModeToggle_refetch_spec (d : FetchDeps)
    (hmode : d.displayMode = DisplayMode.fill) :
    effectReruns d { d with displayMode := DisplayMode.heatmap } = true ∧
    requestsIssued { d with displayMode := DisplayMode.heatmap } =
      requestsIssued d ∧
    (∀ twId : ℕ,
      densityFillVisible .density .heatmap d.selectedTimeWindows twId = false) ∧
    (∀ twId : ℕ, twId ∈ d.selectedTimeWindows →
      densityHeatmapVisible .density .heatmap d.selectedTimeWindows twId = true) ∧
    relativeOpacity TIME_WINDOWS.length 0 = HEATMAP_RELATIVE_MAX_OPACITY := by
  refine ⟨?_, ?_, ?_, ?_, ?_⟩
  · rw [effectReruns, bne_iff_ne]
    intro h
    have : d.displayMode = DisplayMode.heatmap := by rw [h]
    rw [hmode] at this
    exact DisplayMode.noConfusion this
  · rfl
  · intro twId
    simp [densityFillVisible]
  · intro twId hmem
    simp [densityHeatmapVisible, hmem]
  · rfl

/-- Witness for C2 on the scenario-2 dependency tuple. -/
theorem displayModeToggle_refetch_spec_witness :
    scenario2DepsFill.displayMode = DisplayMode.fill ∧
    (effectReruns scenario2DepsFill
        { scenario2DepsFill with displayMode := DisplayMode.heatmap } = true ∧
      requestsIssued { scenario2DepsFill with displayMode := DisplayMode.heatmap } =
        requestsIssued scenario2DepsFill ∧
      (∀ twId : ℕ, densityFillVisible .density .heatmap
          scenario2DepsFill.selectedTimeWindows twId = false) ∧
      (∀ twId : ℕ, twId ∈ scenario2DepsFill.selectedTimeWindows →
        densityHeatmapVisible .density .heatmap
          scenario2DepsFill.selectedTimeWindows twId = true) ∧
      relativeOpacity TIME_WINDOWS.length 0 = HEATMAP_RELATIVE_MAX_OPACITY) :=
  ⟨rfl, displayModeToggle_refetch_spec scenario2DepsFill rfl⟩

/-! ## Precision-level state machine, from src/App.tsx -/

/-- The events that touch the precision-level state: a change of the manual
slider (whose range input is constrained to [MIN_API_LEVEL, MAX_API_LEVEL]
by its min/max attributes), the manual-override toggle, a map idle event
recomputing the auto level from the zoom, and the effect that syncs
currentApiLevel with the effective level. -/
inductive PrecisionEvent where
  | sliderChange (v : ℤ)
  | toggleManual
  | zoomChange (z : ℚ)
  | syncEffect
deriving DecidableEq, Repr

structure PrecisionState where
  manualPrecisionEnabled : Bool
  manualPrecisionLevel : ℤ
  autoCalculatedApiLevel : ℤ
  currentApiLevel : ℤ
deriving DecidableEq, Repr

/-- Initial state of App.tsx: manual override off, every level state
initialised to MIN_API_LEVEL. -/
def initPrecisionState : PrecisionState :=
  ⟨false, MIN_API_LEVEL, MIN_API_LEVEL, MIN_API_LEVEL⟩

/-- The state transitions of App.tsx: handleManualPrecisionChange stores the
slider value unmodified; handleManualPrecisionToggle seeds the manual level
from the auto level when enabling; handleMapIdle recomputes the auto level
through mapboxZoomToApiLevel; and the effect on lines 109-114 copies the
effective level (manual when enabled, auto otherwise) into
currentApiLevel. -/
def precisionStep (s : PrecisionState) : PrecisionEvent → PrecisionState
  | .sliderChange v => { s with manualPrecisionLevel := v }
  | .toggleManual =>
      if s.manualPrecisionEnabled then
        { s with manualPrecisionEnabled := false }
      else
        { s with manualPrecisionEnabled := true,
                 manualPrecisionLevel := s.autoCalculatedApiLevel }
  | .zoomChange z => { s with autoCalculatedApiLevel := mapboxZoomToApiLevel z }
  | .syncEffect =>
      { s with currentApiLevel :=
          if s.manualPrecisionEnabled then s.manualPrecisionLevel
          else s.autoCalculatedApiLevel }

/-- Validity of an event: the range input in App.tsx carries
min = MIN_API_LEVEL and max = MAX_API_LEVEL, so slider values lie in that
range; the other events carry no payload constraint. -/
def validPrecisionEvent : PrecisionEvent → Bool
  | .sliderChange v => decide (MIN_API_LEVEL ≤ v ∧ v ≤ MAX_API_LEVEL)
  | _ => true

def runPrecision (events : List PrecisionEvent) : PrecisionState :=
  events.foldl precisionStep initPrecisionState

/-- Modelled from the spec: the clamp of a user-chosen level into the range
[MIN_API_LEVEL, MAX_API_LEVEL] that section 4.1 requires before use. The
code contains no explicit clamp; this definition is the comparison point
showing the reachable states satisfy it. -/
def clampApiLevelSpec (v : ℤ) : ℤ := max MIN_API_LEVEL (min v MAX_API_LEVEL)

/-- The range invariant of the precision subsystem. -/
def precisionInv (s : PrecisionState) : Prop :=
  (MIN_API_LEVEL ≤ s.manualPrecisionLevel ∧ s.manualPrecisionLevel ≤ MAX_API_LEVEL) ∧
  (MIN_API_LEVEL ≤ s.autoCalculatedApiLevel ∧ s.autoCalculatedApiLevel ≤ MAX_API_LEVEL) ∧
  (MIN_API_LEVEL ≤ s.currentApiLevel ∧ s.currentApiLevel ≤ MAX_API_LEVEL)

lemma precisionInv_init : precisionInv initPrecisionState := by
  refine ⟨⟨le_refl _, ?_⟩, ⟨le_refl _, ?_⟩, ⟨le_refl _, ?_⟩⟩ <;> decide

lemma precisionInv_step (s : PrecisionState) (e : PrecisionEvent)
    (hs : precisionInv s) (he : validPrecisionEvent e = true) :
    precisionInv (precisionStep s e) := by
  obtain ⟨⟨hm1, hm2⟩, ⟨ha1, ha2⟩, ⟨hc1, hc2⟩⟩ := hs
  cases e with
  | sliderChange v =>
    simp only [validPrecisionEvent, decide_eq_true_eq] at he
    exact ⟨he, ⟨ha1, ha2⟩, ⟨hc1, hc2⟩⟩
  | toggleManual =>
    rw [precisionStep]
    split_ifs with h
    · exact ⟨⟨hm1, hm2⟩, ⟨ha1, ha2⟩, ⟨hc1, hc2⟩⟩
    · exact ⟨⟨ha1, ha2⟩, ⟨ha1, ha2⟩, ⟨hc1, hc2⟩⟩
  | zoomChange z =>
    obtain ⟨hz1, hz2⟩ := mapboxZoomToApiLevel_range z
    exact ⟨⟨hm1, hm2⟩, ⟨hz1, hz2⟩, ⟨hc1, hc2⟩⟩
  | syncEffect =>
    refine ⟨⟨hm1, hm2⟩, ⟨ha1, ha2⟩, ?_⟩
    rw [precisionStep]
    by_cases h : s.manualPrecisionEnabled
    · simp only [h, if_true]
      exact ⟨hm1, hm2⟩
    · simp only [h, if_false, Bool.false_eq_true]
      exact ⟨ha1, ha2⟩

lemma precisionInv_run (events : List PrecisionEvent)
    (hvalid : ∀ e ∈ events, validPrecisionEvent e = true) :
    precisionInv (runPrecision events) := by
  rw [runPrecision]
  have : ∀ (l : List PrecisionEvent) (s : PrecisionState), precisionInv s →
      (∀ e ∈ l, validPrecisionEvent e = true) → precisionInv (l.foldl precisionStep s) := by
    intro l
    induction l with
    | nil => intro s hs _; exact hs
    | cons e t ih =>
      intro s hs hv
      exact ih (precisionStep s e) (precisionInv_step s e hs (hv e (by simp)))
        (fun x hx => hv x (by simp [hx]))
  exact this events initPrecisionState precisionInv_init hvalid

/-! ## Theorems for claim C3 -/

/-- C3: along every event trace whose slider events stay within the bounds
the range input enforces, the level used for fetching (currentApiLevel)
never leaves [MIN_API_LEVEL, MAX_API_LEVEL]; and whenever manual override is
enabled, the sync effect makes currentApiLevel equal to the manual level
clamped into that range (the clamp is the identity on the reachable manual
levels). -/
theorem manualPrecision_spec (events : List PrecisionEvent)
    (hvalid : ∀ e ∈ events, validPrecisionEvent e = true) :
    (MIN_API_LEVEL ≤ (runPrecision events).currentApiLevel ∧
      (runPrecision events).currentApiLevel ≤ MAX_API_LEVEL) ∧
    ((runPrecision events).manualPrecisionEnabled = true →
      (precisionStep (runPrecision events) .syncEffect).currentApiLevel =
        clampApiLevelSpec (runPrecision events).manualPrecisionLevel) := by
  obtain ⟨⟨hm1, hm2⟩, _, hc⟩ := precisionInv_run events hvalid
  refine ⟨hc, ?_⟩
  intro hen
  rw [precisionStep]
  simp only [hen, if_true]
  rw [clampApiLevelSpec]
  omega

/-- Witness for C3: enabling manual override, moving the slider to 3, and
letting the sync effect run keeps the level in range and equal to the
clamped manual level. -/
theorem manualPrecision_spec_witness :
    (∀ e ∈ [PrecisionEvent.toggleManual, PrecisionEvent.sliderChange 3,
        PrecisionEvent.syncEffect], validPrecisionEvent e = true) ∧
    ((MIN_API_LEVEL ≤ (runPrecision [PrecisionEvent.toggleManual,
          PrecisionEvent.sliderChange 3, PrecisionEvent.syncEffect]).currentApiLevel ∧
        (runPrecision [PrecisionEvent.toggleManual, PrecisionEvent.sliderChange 3,
          PrecisionEvent.syncEffect]).currentApiLevel ≤ MAX_API_LEVEL) ∧
      ((runPrecision [PrecisionEvent.toggleManual, PrecisionEvent.sliderChange 3,
          PrecisionEvent.syncEffect]).manualPrecisionEnabled = true →
        (precisionStep (runPrecision [PrecisionEvent.toggleManual,
            PrecisionEvent.sliderChange 3, PrecisionEvent.syncEffect])
          .syncEffect).currentApiLevel =
          clampApiLevelSpec (runPrecision [PrecisionEvent.toggleManual,
            PrecisionEvent.sliderChange 3,
            PrecisionEvent.syncEffect]).manualPrecisionLevel)) :=
  ⟨by decide,
   manualPrecision_spec [PrecisionEvent.toggleManual, PrecisionEvent.sliderChange 3,
     PrecisionEvent.syncEffect] (by decide)⟩
